import Mathlib

/-!
Shallow embedding of the chai-backend controllers (video-sharing platform API).

The document database is modelled as an explicit `Store` of lists of records,
one list per Mongo collection.  Mongoose calls are modelled by first-match
list operations (`findFirst`, `updateFirst`, `eraseFirst`): `findById` /
`findOne` return the first matching document, `findOneAndUpdate` /
`findOneAndDelete` act on the first matching document.  Each handler becomes a
function from a request shape and a `Store` to an `Outcome` paired with the
post-state.  A thrown `ApiError(status, msg)` is `Outcome.apiErr`; a runtime
JavaScript exception (TypeError, ReferenceError, driver error) that reaches the
async wrapper is `Outcome.jsErr` and is answered by the express error handler
with HTTP 500; `Outcome.hang` marks a handler path that returns without ever
sending a response.

`isValidObjectId` string-shape checks are outside this embedding: ids are
`Nat` and are always well formed, which matches the claims, all of which are
stated for well-formed ids.
-/

namespace ChaiBackend

abbrev ObjId := Nat

/-- `String.prototype.trim`: strip surrounding whitespace (character-list
implementation, so that it evaluates inside the kernel). -/
def strTrim (s : String) : String :=
  ⟨((s.data.dropWhile Char.isWhitespace).reverse.dropWhile Char.isWhitespace).reverse⟩

/-- `String.prototype.toLowerCase` (character-list implementation). -/
def strToLower (s : String) : String :=
  ⟨s.data.map Char.toLower⟩

/-- Result of one request, as seen by the caller.  `jsErr` is an uncaught
JavaScript exception forwarded by `asyncHandler` (express answers 500);
`hang` is a handler path that falls through without sending a response. -/
inductive Outcome (α : Type) where
  | ok (status : Nat) (data : α)
  | apiErr (status : Nat) (msg : String)
  | jsErr (msg : String)
  | hang
  deriving Repr, DecidableEq

/-- The HTTP status the client observes: `jsErr` is turned into 500 by the
central error middleware; a hanging handler never produces a status. -/
def httpStatus {α : Type} : Outcome α → Option Nat
  | .ok s _ => some s
  | .apiErr s _ => some s
  | .jsErr _ => some 500
  | .hang => none

structure UserRec where
  uid : ObjId
  username : String
  email : String
  fullName : String
  password : String
  avatar : String
  coverImage : String
  refreshToken : Option String
  deriving Repr, DecidableEq

structure VideoRec where
  vid : ObjId
  owner : ObjId
  title : String
  description : String
  videoFile : String
  thumbnail : String
  duration : Nat
  views : Nat
  isPublished : Bool
  deriving Repr, DecidableEq

structure CommentRec where
  cid : ObjId
  video : ObjId
  owner : ObjId
  content : String
  deriving Repr, DecidableEq

structure TweetRec where
  tid : ObjId
  owner : ObjId
  content : String
  deriving Repr, DecidableEq

/-- Polymorphic like target: exactly one of video / comment / tweet. -/
inductive LikeTarget where
  | video (v : ObjId)
  | comment (c : ObjId)
  | tweet (t : ObjId)
  deriving Repr, DecidableEq

structure LikeRec where
  lid : ObjId
  target : LikeTarget
  likedBy : ObjId
  deriving Repr, DecidableEq

structure PlaylistRec where
  pid : ObjId
  owner : ObjId
  name : String
  description : String
  videos : List ObjId
  deriving Repr, DecidableEq

structure SubscriptionRec where
  sid : ObjId
  subscriber : ObjId
  channel : ObjId
  deriving Repr, DecidableEq

/-- The document store: one list per collection, plus a fresh-id source for
documents created by `Model.create`. -/
structure Store where
  users : List UserRec
  videos : List VideoRec
  comments : List CommentRec
  tweets : List TweetRec
  likes : List LikeRec
  playlists : List PlaylistRec
  subscriptions : List SubscriptionRec
  nextId : ObjId
  deriving Repr, DecidableEq

/-- First document matching the filter (`findOne` / `findById`). -/
def findFirst {α : Type} (l : List α) (p : α → Bool) : Option α :=
  match l with
  | [] => none
  | x :: xs => if p x then some x else findFirst xs p

/-- Update the first document matching the filter (`findOneAndUpdate`). -/
def updateFirst {α : Type} (l : List α) (p : α → Bool) (f : α → α) : List α :=
  match l with
  | [] => []
  | x :: xs => if p x then f x :: xs else x :: updateFirst xs p f

/-- Delete the first document matching the filter (`findOneAndDelete`,
`findByIdAndDelete`). -/
def eraseFirst {α : Type} (l : List α) (p : α → Bool) : List α :=
  match l with
  | [] => []
  | x :: xs => if p x then xs else x :: eraseFirst xs p

/-! ## like.controller.js -/

/-- `toggleVideoLike` (src/src/controllers/like.controller.js, lines 10 to 52).
Returns the `isLiked` boolean of the response payload. -/
def toggleVideoLike (s : Store) (currentUser : Option ObjId) (videoId : ObjId) :
    Outcome Bool × Store :=
  match currentUser with
  | none => (.apiErr 401 "Unauthorized: User not logged in", s)
  | some likedBy =>
    match findFirst s.videos (fun v => decide (v.vid = videoId)) with
    | none => (.apiErr 404 "Video not found", s)
    | some _ =>
      match findFirst s.likes
          (fun l => decide (l.target = .video videoId ∧ l.likedBy = likedBy)) with
      | some existing =>
        (.ok 200 false,
          { s with likes := eraseFirst s.likes (fun l => decide (l.lid = existing.lid)) })
      | none =>
        (.ok 200 true,
          { s with
              likes := s.likes ++ [⟨s.nextId, .video videoId, likedBy⟩],
              nextId := s.nextId + 1 })

/-- `toggleCommentLike` (like.controller.js, lines 54 to 94). -/
def toggleCommentLike (s : Store) (currentUser : Option ObjId) (commentId : ObjId) :
    Outcome Bool × Store :=
  match currentUser with
  | none => (.apiErr 401 "Unauthorized: User not logged in", s)
  | some likedBy =>
    match findFirst s.comments (fun c => decide (c.cid = commentId)) with
    | none => (.apiErr 404 "Comment not found", s)
    | some _ =>
      match findFirst s.likes
          (fun l => decide (l.target = .comment commentId ∧ l.likedBy = likedBy)) with
      | some existing =>
        (.ok 200 false,
          { s with likes := eraseFirst s.likes (fun l => decide (l.lid = existing.lid)) })
      | none =>
        (.ok 200 true,
          { s with
              likes := s.likes ++ [⟨s.nextId, .comment commentId, likedBy⟩],
              nextId := s.nextId + 1 })

/-- `toggleTweetLike` (like.controller.js, lines 96 to 136). -/
def toggleTweetLike (s : Store) (currentUser : Option ObjId) (tweetId : ObjId) :
    Outcome Bool × Store :=
  match currentUser with
  | none => (.apiErr 401 "Unauthorized: User not logged in", s)
  | some likedBy =>
    match findFirst s.tweets (fun t => decide (t.tid = tweetId)) with
    | none => (.apiErr 404 "Tweet not found", s)
    | some _ =>
      match findFirst s.likes
          (fun l => decide (l.target = .tweet tweetId ∧ l.likedBy = likedBy)) with
      | some existing =>
        (.ok 200 false,
          { s with likes := eraseFirst s.likes (fun l => decide (l.lid = existing.lid)) })
      | none =>
        (.ok 200 true,
          { s with
              likes := s.likes ++ [⟨s.nextId, .tweet tweetId, likedBy⟩],
              nextId := s.nextId + 1 })

/-! ## subscription.controller.js -/

/-- `toggleSubscription` (src/src/controllers/subscription.controller.js,
lines 9 to 63).  The source has a copy-paste slip in the not-yet-subscribed
branch: instead of `Subscription.create`, it executes
`await Subscription.findByIdAndDelete(existingSubscription._id)` where
`existingSubscription` is `null`, so reading `._id` of `null` raises a
TypeError before any write; the computed message "Subscribed successfully" and
`newSubscriptionStatus = true` are never sent. -/
def toggleSubscription (s : Store) (currentUser : Option ObjId) (channelId : ObjId) :
    Outcome Bool × Store :=
  match currentUser with
  | none => (.apiErr 401 "Unauthorized: User not logged in", s)
  | some subscriberId =>
    if subscriberId = channelId then
      (.apiErr 400 "You cannot subscribe to your own channel", s)
    else
      match findFirst s.users (fun u => decide (u.uid = channelId)) with
      | none => (.apiErr 404 "Channel not found", s)
      | some _ =>
        match findFirst s.subscriptions
            (fun x => decide (x.subscriber = subscriberId ∧ x.channel = channelId)) with
        | some existing =>
          (.ok 200 false,
            { s with
                subscriptions :=
                  eraseFirst s.subscriptions (fun x => decide (x.sid = existing.sid)) })
        | none =>
          (.jsErr "TypeError: Cannot read properties of null reading _id", s)

/-! ## comment.controller.js -/

/-- `updateComment` (src/src/controllers/comment.controller.js, lines 146 to
193): `findOneAndUpdate` filtered by `(_id, owner)`, 404 when nothing
matches. -/
def updateComment (s : Store) (currentUser : Option ObjId) (commentId : ObjId)
    (content : String) : Outcome CommentRec × Store :=
  match currentUser with
  | none => (.apiErr 401 "Unauthorized: User not logged in", s)
  | some ownerId =>
    if strTrim content = "" then
      (.apiErr 400 "Comment content cannot be empty", s)
    else
      match findFirst s.comments
          (fun c => decide (c.cid = commentId ∧ c.owner = ownerId)) with
      | none =>
        (.apiErr 404 "Comment not found or you do not have permission to update it", s)
      | some c =>
        (.ok 200 { c with content := strTrim content },
          { s with
              comments :=
                updateFirst s.comments
                  (fun x => decide (x.cid = commentId ∧ x.owner = ownerId))
                  (fun x => { x with content := strTrim content }) })

/-- `deleteComment` (comment.controller.js, lines 195 to 228):
`findOneAndDelete` filtered by `(_id, owner)`, 404 when nothing matches. -/
def deleteComment (s : Store) (currentUser : Option ObjId) (commentId : ObjId) :
    Outcome Unit × Store :=
  match currentUser with
  | none => (.apiErr 401 "Unauthorized: User not logged in", s)
  | some ownerId =>
    match findFirst s.comments
        (fun c => decide (c.cid = commentId ∧ c.owner = ownerId)) with
    | none => (.apiErr 404 "Comment not found or you are not owner", s)
    | some _ =>
      (.ok 200 (),
        { s with
            comments :=
              eraseFirst s.comments
                (fun c => decide (c.cid = commentId ∧ c.owner = ownerId)) })

/-! ## tweet.controller.js (src/unnamed, same file as subscription controller) -/

/-- `updateTweet` (lines 320 to 366 of the tweet controller). -/
def updateTweet (s : Store) (currentUser : Option ObjId) (tweetId : ObjId)
    (content : String) : Outcome TweetRec × Store :=
  match currentUser with
  | none => (.apiErr 401 "Unauthorized: User not logged in", s)
  | some ownerId =>
    if strTrim content = "" then
      (.apiErr 400 "Tweet content cannot be empty", s)
    else
      match findFirst s.tweets
          (fun t => decide (t.tid = tweetId ∧ t.owner = ownerId)) with
      | none => (.apiErr 404 "Tweet not found or you are not the owner", s)
      | some t =>
        (.ok 200 { t with content := strTrim content },
          { s with
              tweets :=
                updateFirst s.tweets
                  (fun x => decide (x.tid = tweetId ∧ x.owner = ownerId))
                  (fun x => { x with content := strTrim content }) })

/-- `deleteTweet` (lines 368 to 402 of the tweet controller). -/
def deleteTweet (s : Store) (currentUser : Option ObjId) (tweetId : ObjId) :
    Outcome Unit × Store :=
  match currentUser with
  | none => (.apiErr 401 "Unauthorized: User not logged in", s)
  | some ownerId =>
    match findFirst s.tweets
        (fun t => decide (t.tid = tweetId ∧ t.owner = ownerId)) with
    | none => (.apiErr 404 "Tweet not found or you are not the owner", s)
    | some _ =>
      (.ok 200 (),
        { s with
            tweets :=
              eraseFirst s.tweets
                (fun t => decide (t.tid = tweetId ∧ t.owner = ownerId)) })

/-! ## External collaborators -/

/-- Fulfilled value of `cloudinary.uploader.upload`. -/
structure CloudinaryRes where
  url : String
  publicId : String
  duration : Nat
  deriving Repr, DecidableEq

/-- Deterministic environment for the external collaborators consumed by the
handlers: the media-store upload result per local path (`none` models a
rejected upload), JWT verification of refresh tokens (decoded user id, `none`
models an invalid token), and token generation per user id. -/
structure Env where
  upload : String → Option CloudinaryRes
  verifyRefresh : String → Option ObjId
  genAccess : ObjId → String
  genRefresh : ObjId → String

/-! ## video.controller.js -/

/-- The video document shaped by the `getVideoById` aggregation (projection
plus `likesCount`, `isLiked`, `isSubscribed`). -/
structure VideoView where
  vid : ObjId
  owner : ObjId
  title : String
  views : Nat
  isPublished : Bool
  likesCount : Nat
  isLiked : Bool
  isSubscribed : Bool
  deriving Repr, DecidableEq

/-- `getVideoById` (src/src/controllers/video.controller.js, lines 166 to
271).  The aggregation matches on `_id` only; the view counter is incremented
(`$inc: \x7b views: 1 \x7d`) when the caller is logged in and is not the owner, or
when the caller is anonymous; an owner fetch leaves the counter alone. -/
def getVideoById (s : Store) (currentUser : Option ObjId) (videoId : ObjId) :
    Outcome VideoView × Store :=
  match findFirst s.videos (fun v => decide (v.vid = videoId)) with
  | none => (.apiErr 404 "Video not found", s)
  | some v =>
    let videoLikes := s.likes.filter (fun l => decide (l.target = .video videoId))
    let isLiked : Bool :=
      match currentUser with
      | some u => videoLikes.any (fun l => decide (l.likedBy = u))
      | none => false
    let inc : Bool :=
      match currentUser with
      | some u => decide (v.owner ≠ u)
      | none => true
    let s' :=
      if inc then
        { s with
            videos :=
              updateFirst s.videos (fun x => decide (x.vid = videoId))
                (fun x => { x with views := x.views + 1 }) }
      else s
    let isSubscribed : Bool :=
      match currentUser with
      | some u =>
        decide (v.owner ≠ u) &&
          (s.subscriptions.any (fun x => decide (x.subscriber = u ∧ x.channel = v.owner)))
      | none => false
    (.ok 200
      { vid := v.vid, owner := v.owner, title := v.title,
        views := v.views + (if inc then 1 else 0), isPublished := v.isPublished,
        likesCount := videoLikes.length, isLiked := isLiked,
        isSubscribed := isSubscribed }, s')

/-- `true` when an optional request-body text is absent or blank
(the `!field?.trim()` test). -/
def optBlank (o : Option String) : Bool :=
  match o with
  | none => true
  | some t => decide (strTrim t = "")

/-- `updateVideo` (video.controller.js, lines 273 to 356): `findOne` filtered
by `(_id, owner)` then `findByIdAndUpdate`.  The best-effort deletion of the
old thumbnail references the unimported name `cloudinary`, but that
ReferenceError is raised inside a `try` block and only logged. -/
def updateVideo (s : Store) (env : Env) (currentUser : Option ObjId) (videoId : ObjId)
    (title? description? : Option String) (thumbPath? : Option String) :
    Outcome VideoRec × Store :=
  match currentUser with
  | none => (.apiErr 401 "Unauthorized: User not logged in", s)
  | some ownerId =>
    if optBlank title? && optBlank description? && thumbPath?.isNone then
      (.apiErr 400 "Provide title, description, or thumbnail to update", s)
    else
      match findFirst s.videos
          (fun v => decide (v.vid = videoId ∧ v.owner = ownerId)) with
      | none => (.apiErr 404 "Video not found or you are not the owner", s)
      | some _ =>
        let newThumb? : Option (Option CloudinaryRes) :=
          match thumbPath? with
          | none => none
          | some p => some (env.upload p)
        match newThumb? with
        | some none => (.apiErr 500 "Failed to upload new thumbnail", s)
        | _ =>
          let applyFields : VideoRec → VideoRec := fun x =>
            let x := if optBlank title? then x else { x with title := strTrim (title?.getD "") }
            let x :=
              if optBlank description? then x
              else { x with description := strTrim (description?.getD "") }
            match newThumb? with
            | some (some t) => { x with thumbnail := t.url }
            | _ => x
          let s' :=
            { s with
                videos := updateFirst s.videos (fun x => decide (x.vid = videoId)) applyFields }
          match findFirst s'.videos (fun x => decide (x.vid = videoId)) with
          | some updated => (.ok 200 updated, s')
          | none => (.apiErr 500 "Failed to update video", s')

/-- `deleteVideo` (video.controller.js, lines 358 to 407).  After the filtered
`findOneAndDelete` succeeds, the Cloudinary cleanup references the unimported
name `cloudinary`, but that ReferenceError is inside a `try` block and is only
logged.  The cascade step then evaluates `Like.deleteMany(...)`: `Like` (like
`Comment` and `Playlist` after it) is never imported in video.controller.js,
and this ReferenceError is not in any `try` block, so it propagates; the
dependent likes, comments and playlist memberships are never touched. -/
def deleteVideo (s : Store) (currentUser : Option ObjId) (videoId : ObjId) :
    Outcome Unit × Store :=
  match currentUser with
  | none => (.apiErr 401 "Unauthorized: User not logged in", s)
  | some ownerId =>
    match findFirst s.videos
        (fun v => decide (v.vid = videoId ∧ v.owner = ownerId)) with
    | none => (.apiErr 404 "Video not found or you are not the owner", s)
    | some _ =>
      let s1 :=
        { s with
            videos :=
              eraseFirst s.videos
                (fun v => decide (v.vid = videoId ∧ v.owner = ownerId)) }
      (.jsErr "ReferenceError: Like is not defined", s1)

/-! ## playlist.controller.js (src/unnamed/part_000) -/

/-- `addVideoToPlaylist` (src/unnamed/part_000, lines 209 to 261): check the
video exists, find the playlist filtered by `(_id, owner)` (404 otherwise),
reject a duplicate member with 409, else `push` and `save`. -/
def addVideoToPlaylist (s : Store) (currentUser : Option ObjId)
    (playlistId videoId : ObjId) : Outcome PlaylistRec × Store :=
  match currentUser with
  | none => (.apiErr 401 "Unauthorized: User not logged in", s)
  | some ownerId =>
    match findFirst s.videos (fun v => decide (v.vid = videoId)) with
    | none => (.apiErr 404 "Video not found", s)
    | some _ =>
      match findFirst s.playlists
          (fun p => decide (p.pid = playlistId ∧ p.owner = ownerId)) with
      | none => (.apiErr 404 "Playlist not found or you are not the owner", s)
      | some pl =>
        if videoId ∈ pl.videos then
          (.apiErr 409 "Video already exists in the playlist", s)
        else
          (.ok 200 { pl with videos := pl.videos ++ [videoId] },
            { s with
                playlists :=
                  updateFirst s.playlists
                    (fun p => decide (p.pid = playlistId ∧ p.owner = ownerId))
                    (fun p => { p with videos := p.videos ++ [videoId] }) })

/-- `removeVideoFromPlaylist` (part_000, lines 263 to 307): find the playlist
filtered by `(_id, owner)` (404 otherwise), 404 when the video is not a
member, else `findOneAndUpdate` with `$pull` (removes every occurrence). -/
def removeVideoFromPlaylist (s : Store) (currentUser : Option ObjId)
    (playlistId videoId : ObjId) : Outcome PlaylistRec × Store :=
  match currentUser with
  | none => (.apiErr 401 "Unauthorized: User not logged in", s)
  | some ownerId =>
    match findFirst s.playlists
        (fun p => decide (p.pid = playlistId ∧ p.owner = ownerId)) with
    | none => (.apiErr 404 "Playlist not found or you are not the owner", s)
    | some _ =>
      match findFirst s.playlists
          (fun p => decide (p.pid = playlistId ∧ p.owner = ownerId)) with
      | some pl =>
        if videoId ∈ pl.videos then
          let s' :=
            { s with
                playlists :=
                  updateFirst s.playlists
                    (fun p => decide (p.pid = playlistId ∧ p.owner = ownerId))
                    (fun p => { p with videos := p.videos.filter (fun x => decide (x ≠ videoId)) }) }
          (.ok 200 { pl with videos := pl.videos.filter (fun x => decide (x ≠ videoId)) }, s')
        else (.apiErr 404 "Video not found in the playlist", s)
      | none => (.apiErr 500 "Failed to remove video from playlist", s)

/-- `deletePlaylist` (part_000, lines 309 to 339). -/
def deletePlaylist (s : Store) (currentUser : Option ObjId) (playlistId : ObjId) :
    Outcome Unit × Store :=
  match currentUser with
  | none => (.apiErr 401 "Unauthorized: User not logged in", s)
  | some ownerId =>
    match findFirst s.playlists
        (fun p => decide (p.pid = playlistId ∧ p.owner = ownerId)) with
    | none => (.apiErr 404 "Playlist not found or you are not the owner", s)
    | some _ =>
      (.ok 200 (),
        { s with
            playlists :=
              eraseFirst s.playlists
                (fun p => decide (p.pid = playlistId ∧ p.owner = ownerId)) })

/-- `updatePlaylist` (part_000, lines 341 to 393). -/
def updatePlaylist (s : Store) (currentUser : Option ObjId) (playlistId : ObjId)
    (name? description? : Option String) : Outcome PlaylistRec × Store :=
  match currentUser with
  | none => (.apiErr 401 "Unauthorized: User not logged in", s)
  | some ownerId =>
    if optBlank name? && optBlank description? then
      (.apiErr 400 "Name or description is required for update", s)
    else
      match findFirst s.playlists
          (fun p => decide (p.pid = playlistId ∧ p.owner = ownerId)) with
      | none => (.apiErr 404 "Playlist not found or you are not the owner", s)
      | some pl =>
        let applyFields : PlaylistRec → PlaylistRec := fun p =>
          let p := if optBlank name? then p else { p with name := strTrim (name?.getD "") }
          if optBlank description? then p
          else { p with description := strTrim (description?.getD "") }
        (.ok 200 (applyFields pl),
          { s with
              playlists :=
                updateFirst s.playlists
                  (fun p => decide (p.pid = playlistId ∧ p.owner = ownerId))
                  applyFields })

/-! ## user.controller.js -/

/-- The user document as serialized into a JSON response body, as a list of
field/value pairs.  `select("-password -refreshToken")` drops the last two
entries. -/
def serializePublicUser (u : UserRec) : List (String × String) :=
  [("_id", toString u.uid), ("username", u.username), ("email", u.email),
   ("fullName", u.fullName), ("avatar", u.avatar), ("coverImage", u.coverImage)]

/-- Serialization of a user document fetched with a plain `findById` (no
`select`): every stored field is included, the hashed password among them. -/
def serializeFullUser (u : UserRec) : List (String × String) :=
  serializePublicUser u ++ [("password", u.password)] ++
    (match u.refreshToken with
     | none => []
     | some t => [("refreshToken", t)])

/-- One value of a Mongoose `$set` document.  `undef` mirrors the JavaScript
value `undefined`: Mongoose strips keys whose value is `undefined` from the
update before it reaches the store, so such a key sets nothing. -/
inductive UpdateVal where
  | undef
  | str (v : String)
  deriving Repr, DecidableEq

/-- Apply one `$set` entry to a user document, with Mongoose semantics for
`undefined`-valued keys (the key is dropped; no field is written). -/
def applyUserSet (u : UserRec) (kv : String × UpdateVal) : UserRec :=
  match kv with
  | (_, .undef) => u
  | ("refreshToken", .str v) => { u with refreshToken := some v }
  | ("fullName", .str v) => { u with fullName := v }
  | ("email", .str v) => { u with email := v }
  | ("avatar", .str v) => { u with avatar := v }
  | ("coverImage", .str v) => { u with coverImage := v }
  | ("password", .str v) => { u with password := v }
  | (_, .str _) => u

/-- A Mongoose `$set` update document applied to a user document. -/
def mongooseSetUser (u : UserRec) (fields : List (String × UpdateVal)) : UserRec :=
  fields.foldl applyUserSet u

/-- The request body and files of `registerUser`.  The four text fields are
modelled as present (the source validation `field?.trim() === ""` only
rejects present-and-blank fields anyway). -/
structure RegisterReq where
  fullName : String
  email : String
  username : String
  password : String
  avatarPath : Option String
  coverImagePaths : List String
  deriving Repr, DecidableEq

/-- `registerUser` (src/src/controllers/user.controller.js, lines 28 to 105).
Faithful points: the duplicate pre-check queries the raw `username`, while the
created document stores `username.toLowerCase()`; a misplaced closing brace
puts everything after the cover-image extraction inside
`if (req.files && Array.isArray(req.files.coverImage) && ...)`, so a request
without a cover image falls through without any response (`Outcome.hang`);
`coverImage.url` is read without a null check, so a rejected cover upload is a
TypeError.  The password is stored as the request credential (the hashing
pre-save hook lives in the absent user model and does not affect identity of
any claim here).

Modelled from the spec: the store-level uniqueness constraint on handle and
email.  `src/models/user.model.js` is not under src/; spec section 3 states
"handle and email are each globally unique" and section 6 lists "uniqueness
constraints" among the persistent-store capabilities, so `User.create` on a
duplicate handle or email is modelled as a driver duplicate-key error, which
reaches the async wrapper as an uncategorized failure (HTTP 500). -/
def registerUser (s : Store) (env : Env) (r : RegisterReq) :
    Outcome (List (String × String)) × Store :=
  if strTrim r.fullName = "" ∨ strTrim r.email = "" ∨ strTrim r.username = "" ∨
      strTrim r.password = "" then
    (.apiErr 400 "Please fill all the fields", s)
  else
    match findFirst s.users
        (fun u => decide (u.username = r.username ∨ u.email = r.email)) with
    | some _ => (.apiErr 409 "User with email or username already exists", s)
    | none =>
      match r.coverImagePaths with
      | [] => (.hang, s)
      | coverPath :: _ =>
        match r.avatarPath with
        | none => (.apiErr 400 "Please upload an avatar", s)
        | some avatarPath =>
          match env.upload avatarPath, env.upload coverPath with
          | none, _ => (.apiErr 500 "Avatar file is required", s)
          | some _, none =>
            (.jsErr "TypeError: Cannot read properties of null reading url", s)
          | some avatar, some cover =>
            if s.users.any
                (fun u => decide (u.username = strToLower r.username ∨ u.email = r.email)) then
              (.jsErr "MongoServerError: E11000 duplicate key error", s)
            else
              let newUser : UserRec :=
                { uid := s.nextId, username := strToLower r.username, email := r.email,
                  fullName := r.fullName, password := r.password,
                  avatar := avatar.url, coverImage := cover.url, refreshToken := none }
              (.ok 201 (serializePublicUser newUser),
                { s with users := s.users ++ [newUser], nextId := s.nextId + 1 })

/-- `generateAccessAndRefreshTokens` (user controller, lines 95 to 114 of the
full controller): issue both tokens and persist the refresh token on the user
document. -/
def generateAccessAndRefreshTokens (s : Store) (env : Env) (userId : ObjId) :
    Outcome (String × String) × Store :=
  match findFirst s.users (fun u => decide (u.uid = userId)) with
  | none => (.apiErr 500 "Error generating access and refresh tokens", s)
  | some _ =>
    (.ok 200 (env.genAccess userId, env.genRefresh userId),
      { s with
          users :=
            updateFirst s.users (fun u => decide (u.uid = userId))
              (fun u => { u with refreshToken := some (env.genRefresh userId) }) })

/-- `logoutUser` (src/src/controllers/user.controller.js, lines 157 to 187):
`findByIdAndUpdate` with `$set: \x7b refreshToken: undefined \x7d`.  Mongoose strips
`undefined`-valued keys from the update document, so the `$set` is empty and
the stored refresh token is left in place. -/
def logoutUser (s : Store) (userId : ObjId) : Outcome Unit × Store :=
  (.ok 200 (),
    { s with
        users :=
          updateFirst s.users (fun u => decide (u.uid = userId))
            (fun u => mongooseSetUser u [("refreshToken", .undef)]) })

/-- `refreshAccessToken` (src/unnamed/part_003, lines 284 to 328): verify the
presented refresh token, compare it with the stored one, and on success rotate
both tokens.  The response reads `newrefreshToken` from a destructuring of a
value whose field is named `refreshToken`, so the refreshed token in the
payload is `undefined` (modelled as `none`); only the status matters to the
claims. -/
def refreshAccessToken (s : Store) (env : Env) (incoming : Option String) :
    Outcome (String × Option String) × Store :=
  match incoming with
  | none => (.apiErr 401 "Unauthorized request", s)
  | some token =>
    match env.verifyRefresh token with
    | none => (.apiErr 401 "Invalid refresh token", s)
    | some userId =>
      match findFirst s.users (fun u => decide (u.uid = userId)) with
      | none => (.apiErr 401 "Invalid refresh token", s)
      | some user =>
        if some token ≠ user.refreshToken then
          (.apiErr 401 "Refresh token does not match or expired", s)
        else
          match generateAccessAndRefreshTokens s env userId with
          | (.ok _ (access, _), s') => (.ok 200 (access, none), s')
          | (_, s') => (.apiErr 401 "Error generating access and refresh tokens", s')

/-- `updateUserAvatar` (src/unnamed/part_003, lines 387 to 442).  Faithful
points: a rejected upload raises a TypeError at `avatar.url`; when the user
has a non-empty old avatar, the cleanup calls `uploadOnCloudinary.destroy`,
which is not a function, and the catch block rethrows ApiError 500; the
success response serializes `user` — the document fetched with a plain
`findById`, password included — instead of the computed `updatedUser` that
was selected with `-password`. -/
def updateUserAvatar (s : Store) (env : Env) (userId : ObjId)
    (filePath : Option String) : Outcome (List (String × String)) × Store :=
  match filePath with
  | none => (.apiErr 400 "Avatar file is missing", s)
  | some p =>
    match findFirst s.users (fun u => decide (u.uid = userId)) with
    | none => (.apiErr 404 "User not found", s)
    | some user =>
      match env.upload p with
      | none => (.jsErr "TypeError: Cannot read properties of null reading url", s)
      | some avatar =>
        if avatar.url = "" then
          (.apiErr 400 "Error uploading new avatar to Cloudinary", s)
        else if user.avatar ≠ "" then
          (.apiErr 500 "Error deleting old avatar from Cloudinary", s)
        else
          (.ok 200 (serializeFullUser user),
            { s with
                users :=
                  updateFirst s.users (fun u => decide (u.uid = userId))
                    (fun u => { u with avatar := avatar.url }) })

/-! ## Pagination parameters -/

/-- Leading decimal digits of a character list. -/
def leadingDigits (cs : List Char) : List Char :=
  cs.takeWhile (fun c => c.isDigit)

/-- Numeric value of a digit list. -/
def digitsVal (cs : List Char) : Nat :=
  cs.foldl (fun a c => a * 10 + (c.toNat - 48)) 0

/-- JavaScript `parseInt` on a string (radix 10): skip surrounding whitespace,
read an optional sign and the longest run of leading digits; `none` models the
`NaN` produced when no digit is found. -/
def jsParseInt (s : String) : Option Int :=
  match (strTrim s).toList with
  | '-' :: rest =>
    match leadingDigits rest with
    | [] => none
    | ds => some (-(digitsVal ds : Int))
  | '+' :: rest =>
    match leadingDigits rest with
    | [] => none
    | ds => some (digitsVal ds : Int)
  | cs =>
    match leadingDigits cs with
    | [] => none
    | ds => some (digitsVal ds : Int)

/-- `const \x7b page = 1 \x7d = req.query` followed by `parseInt(page)`: the
destructuring default applies only when the parameter is absent
(`parseInt(1)` is `1`); a supplied value is parsed as is. -/
def pageParam (q : Option String) : Option Int :=
  match q with
  | none => some 1
  | some v => jsParseInt v

/-- Same for `limit = 10`. -/
def limitParam (q : Option String) : Option Int :=
  match q with
  | none => some 10
  | some v => jsParseInt v

/-- The `page` and `limit` options handed to `Model.aggregatePaginate`.
`none` models `NaN`. -/
structure PaginateOpts where
  page : Option Int
  limit : Option Int
  deriving Repr, DecidableEq

/-- The call `getAllVideos` issues to `Video.aggregatePaginate`: the match
stage (published only, optional owner, optional text search), the sort stage
and the pagination options.  The external pagination library itself is out of
scope; the handler contract is the call it emits. -/
structure VideoListingCall where
  ownerFilter : Option ObjId
  textQuery : Option String
  sortBy : String
  sortDesc : Bool
  opts : PaginateOpts
  deriving Repr, DecidableEq

/-- `getAllVideos` (src/src/controllers/video.controller.js, lines 10 to
100). -/
def getAllVideos (s : Store) (page limit search sortBy sortType : Option String)
    (userId : Option ObjId) : Outcome VideoListingCall × Store :=
  let opts : PaginateOpts := { page := pageParam page, limit := limitParam limit }
  let ownerCheck : Outcome Unit :=
    match userId with
    | none => .ok 200 ()
    | some u =>
      match findFirst s.users (fun x => decide (x.uid = u)) with
      | none => .apiErr 404 "User (channel) not found"
      | some _ => .ok 200 ()
  match ownerCheck with
  | .apiErr st m => (.apiErr st m, s)
  | _ =>
    let sortField :=
      match sortBy with
      | some f => if f ∈ ["createdAt", "views", "duration", "title"] then f else "createdAt"
      | none => "createdAt"
    let explicitSort :=
      match sortBy with
      | some f => decide (f ∈ ["createdAt", "views", "duration", "title"])
      | none => false
    let sortDesc := if explicitSort then decide (sortType = some "desc") else true
    (.ok 200
      { ownerFilter := userId, textQuery := search, sortBy := sortField,
        sortDesc := sortDesc, opts := opts }, s)

/-- The call `getLikedVideos` issues to `Like.aggregatePaginate`. -/
structure LikedVideosCall where
  likedBy : ObjId
  opts : PaginateOpts
  deriving Repr, DecidableEq

/-- `getLikedVideos` (src/src/controllers/like.controller.js, lines 138 to
241): 401 for an anonymous caller, then the aggregation over the caller's
likes is paginated with the parsed `page` and `limit`. -/
def getLikedVideos (s : Store) (currentUser : Option ObjId)
    (page limit : Option String) : Outcome LikedVideosCall × Store :=
  match currentUser with
  | none => (.apiErr 401 "Unauthorized: User not logged in", s)
  | some likedBy =>
    (.ok 200
      { likedBy := likedBy,
        opts := { page := pageParam page, limit := limitParam limit } }, s)

/-- The call `getVideoComments` issues to `Comment.aggregatePaginate`. -/
structure CommentListingCall where
  video : ObjId
  opts : PaginateOpts
  deriving Repr, DecidableEq

/-- `getVideoComments` (src/src/controllers/comment.controller.js, lines 8 to
93): 404 when the video is absent, then the comment aggregation for the video
is paginated with the parsed `page` and `limit` (sorted newest first).

Modelled from the spec: `src/models/comment.model.js` is not under src/, so
the aggregate-paginate plugin on the Comment model is assumed present per
spec section 4.5 (the Relational Aggregation Builder pattern these listings
implement). -/
def getVideoComments (s : Store) (videoId : ObjId) (page limit : Option String) :
    Outcome CommentListingCall × Store :=
  match findFirst s.videos (fun v => decide (v.vid = videoId)) with
  | none => (.apiErr 404 "Video not found", s)
  | some _ =>
    (.ok 200
      { video := videoId,
        opts := { page := pageParam page, limit := limitParam limit } }, s)

/-- The call `getUserTweets` issues to `Tweet.aggregatePaginate`. -/
structure TweetListingCall where
  owner : ObjId
  sortBy : String
  sortDesc : Bool
  opts : PaginateOpts
  deriving Repr, DecidableEq

/-- `getUserTweets` (tweet controller, lines 247 to 318): 404 when the user is
absent, then the tweet aggregation for the owner is paginated with the parsed
`page` and `limit`; `sortBy` is honoured only from the allow-list
`createdAt`/`updatedAt`, defaulting to newest first.

Modelled from the spec: `src/models/tweet.model.js` is not under src/, so the
aggregate-paginate plugin on the Tweet model is assumed present per spec
section 4.5. -/
def getUserTweets (s : Store) (userId : ObjId)
    (page limit sortBy sortType : Option String) : Outcome TweetListingCall × Store :=
  match findFirst s.users (fun u => decide (u.uid = userId)) with
  | none => (.apiErr 404 "User not found", s)
  | some _ =>
    let sortField :=
      match sortBy with
      | some f => if f ∈ ["createdAt", "updatedAt"] then f else "createdAt"
      | none => "createdAt"
    let explicitSort :=
      match sortBy with
      | some f => decide (f ∈ ["createdAt", "updatedAt"])
      | none => false
    let sortDesc := if explicitSort then decide (sortType = some "desc") else true
    (.ok 200
      { owner := userId, sortBy := sortField, sortDesc := sortDesc,
        opts := { page := pageParam page, limit := limitParam limit } }, s)

/-- `getUserChannelSubscribers` (src/src/controllers/subscription.controller.js,
lines 66 to 130): 404 when the channel is absent; `page` and `limit` are then
parsed and the aggregation object is built, but the subscription schema (the
second segment of src/src/index.js) registers no aggregate-paginate plugin,
so `Subscription.aggregatePaginate` is `undefined` and the call throws a
TypeError (HTTP 500) — the parsed values never reach a pagination layer. -/
def getUserChannelSubscribers (s : Store) (channelId : ObjId)
    (page limit : Option String) : Outcome Unit × Store :=
  match findFirst s.users (fun u => decide (u.uid = channelId)) with
  | none => (.apiErr 404 "Channel not found", s)
  | some _ =>
    let _pageNumber := pageParam page
    let _limitNumber := limitParam limit
    (.jsErr "TypeError: Subscription.aggregatePaginate is not a function", s)

/-- `getSubscribedChannels` (subscription.controller.js, lines 133 to 196):
404 when the subscriber is absent; like `getUserChannelSubscribers`, the call
to the missing `Subscription.aggregatePaginate` throws a TypeError before any
pagination happens. -/
def getSubscribedChannels (s : Store) (subscriberId : ObjId)
    (page limit : Option String) : Outcome Unit × Store :=
  match findFirst s.users (fun u => decide (u.uid = subscriberId)) with
  | none => (.apiErr 404 "Subscriber not found", s)
  | some _ =>
    let _pageNumber := pageParam page
    let _limitNumber := limitParam limit
    (.jsErr "TypeError: Subscription.aggregatePaginate is not a function", s)

/-! ## utils/cloudinary.js -/

/-- Return shape of a plain JavaScript function call: a value, or an exception
that propagates to the caller. -/
inductive JsResult (α : Type) where
  | value (a : α)
  | thrown (msg : String)
  deriving Repr, DecidableEq

/-- The local filesystem as seen by `fs`: the set of existing file paths. -/
structure FsState where
  files : List String
  deriving Repr, DecidableEq

/-- `fs.unlinkSync`: throws a TypeError when the path is `undefined`, throws
ENOENT when no such file exists, otherwise removes the file. -/
def fsUnlinkSync (fs : FsState) (path : Option String) : JsResult Unit × FsState :=
  match path with
  | none => (.thrown "TypeError: The path argument must be of type string", fs)
  | some p =>
    if p ∈ fs.files then (.value (), { files := fs.files.erase p })
    else (.thrown "Error: ENOENT: no such file or directory", fs)

/-- `uploadOnCloudinary` (src/src/utils/cloudinary.js, lines 13 to 30).  The
`try` block throws on an absent path and on a rejected upload; the `catch`
block runs `fs.unlinkSync(localFilePath)` and returns `null` — but when the
path is `undefined`, or when the file is already gone, `unlinkSync` itself
throws inside the `catch`, and that exception propagates to the caller. -/
def uploadOnCloudinary (env : Env) (fs : FsState) (localFilePath : Option String) :
    JsResult (Option CloudinaryRes) × FsState :=
  match localFilePath with
  | none =>
    (match fsUnlinkSync fs none with
     | (.thrown m, fs') => (.thrown m, fs')
     | (.value _, fs') => (.value none, fs'))
  | some p =>
    match env.upload p with
    | some r => (.value (some r), fs)
    | none =>
      match fsUnlinkSync fs (some p) with
      | (.value _, fs') => (.value none, fs')
      | (.thrown m, fs') => (.thrown m, fs')

/-! ## Derived observations of the store -/

/-- Stored view counter of a video. -/
def viewsOf (s : Store) (videoId : ObjId) : Option Nat :=
  (findFirst s.videos (fun v => decide (v.vid = videoId))).map (fun v => v.views)

/-- Membership list of the playlist matched by `(_id, owner)`. -/
def ownedPlaylistVideos (s : Store) (a pid : ObjId) : Option (List ObjId) :=
  (findFirst s.playlists (fun p => decide (p.pid = pid ∧ p.owner = a))).map
    (fun p => p.videos)

/-- Stored refresh token of a user (outer `none`: no such user). -/
def userRefreshToken (s : Store) (uid : ObjId) : Option (Option String) :=
  (findFirst s.users (fun u => decide (u.uid = uid))).map (fun u => u.refreshToken)

/-! ## Lemmas about the first-match list operations -/

theorem findFirst_eq_none {α : Type} {l : List α} {p : α → Bool}
    (h : ∀ x ∈ l, p x = false) : findFirst l p = none := by
  induction l with
  | nil => rfl
  | cons x xs ih =>
    have hx := h x (List.mem_cons_self x xs)
    simp only [findFirst, hx, Bool.false_eq_true, if_false]
    exact ih (fun y hy => h y (List.mem_cons_of_mem x hy))

theorem findFirst_some {α : Type} {l : List α} {p : α → Bool} {v : α}
    (h : findFirst l p = some v) : p v = true := by
  induction l with
  | nil => simp [findFirst] at h
  | cons x xs ih =>
    by_cases hx : p x = true
    · simp only [findFirst, hx, if_true, Option.some.injEq] at h
      exact h ▸ hx
    · simp only [findFirst, hx, if_false] at h
      exact ih h

theorem findFirst_updateFirst {α : Type} {l : List α} {p : α → Bool} {f : α → α}
    {v : α} (h : findFirst l p = some v) (hp : p (f v) = true) :
    findFirst (updateFirst l p f) p = some (f v) := by
  induction l with
  | nil => simp [findFirst] at h
  | cons x xs ih =>
    by_cases hx : p x = true
    · simp only [findFirst, hx, if_true, Option.some.injEq] at h
      subst h
      simp only [updateFirst, hx, if_true, findFirst, hp]
    · simp only [findFirst, hx, if_false] at h
      simp only [updateFirst, hx, if_false, findFirst]
      exact ih h

/-! ## Concrete fixtures -/

/-- Two plain accounts. -/
def user1 : UserRec :=
  { uid := 1, username := "uone", email := "one@example.com", fullName := "User One",
    password := "hash-one", avatar := "av1", coverImage := "", refreshToken := none }

def user2 : UserRec :=
  { uid := 2, username := "utwo", email := "two@example.com", fullName := "User Two",
    password := "hash-two", avatar := "av2", coverImage := "", refreshToken := none }

/-- Store in which account 1 subscribes to channel 2. -/
def sSub : Store :=
  { users := [user1, user2], videos := [], comments := [], tweets := [], likes := [],
    playlists := [], subscriptions := [{ sid := 500, subscriber := 1, channel := 2 }],
    nextId := 600 }

/-- Same store without the subscription. -/
def sNoSub : Store :=
  { users := [user1, user2], videos := [], comments := [], tweets := [], likes := [],
    playlists := [], subscriptions := [], nextId := 600 }

/-- C1: the claim says each toggle operation flips membership and double
toggling restores the original state.  This holds for the three like toggles,
but `toggleSubscription` violates it: starting subscribed, the first call
unsubscribes and the second call — which the claim says re-creates the
subscription and reports `true` — instead evaluates
`Subscription.findByIdAndDelete(existingSubscription._id)` with
`existingSubscription === null`, raising a TypeError (HTTP 500) and writing
nothing, so the double toggle does not restore the original state. -/
theorem C1_toggleSubscription_bug :
    toggleSubscription sSub (some 1) 2 = (.ok 200 false, sNoSub) ∧
    toggleSubscription sNoSub (some 1) 2 =
      (.jsErr "TypeError: Cannot read properties of null reading _id", sNoSub) ∧
    httpStatus (toggleSubscription sNoSub (some 1) 2).1 = some 500 := by
  decide

/-- Store with video 10 (owner 1) carrying 3 likes, 2 comments, and a place in
playlist 40. -/
def s3 : Store :=
  { users := [user1, user2],
    videos := [{ vid := 10, owner := 1, title := "t", description := "d",
                 videoFile := "vf", thumbnail := "th", duration := 5, views := 0,
                 isPublished := true }],
    comments := [{ cid := 20, video := 10, owner := 2, content := "c1" },
                 { cid := 21, video := 10, owner := 2, content := "c2" }],
    tweets := [],
    likes := [{ lid := 30, target := .video 10, likedBy := 2 },
              { lid := 31, target := .video 10, likedBy := 3 },
              { lid := 32, target := .video 10, likedBy := 4 }],
    playlists := [{ pid := 40, owner := 2, name := "p", description := "d",
                    videos := [10, 11] }],
    subscriptions := [], nextId := 100 }

/-- C3: the claim says a successful owner delete of video V leaves no Like,
no Comment and no playlist membership referencing V.  In the source the
cascade (`Like.deleteMany`, `Comment.deleteMany`, `Playlist.updateMany`)
references names that are never imported in video.controller.js, so after the
video document is removed the handler dies with a ReferenceError (HTTP 500):
the operation never completes successfully, and all three likes, both
comments and the playlist membership of V survive. -/
theorem C3_deleteVideo_cascade_bug :
    (deleteVideo s3 (some 1) 10).1 = .jsErr "ReferenceError: Like is not defined" ∧
    httpStatus (deleteVideo s3 (some 1) 10).1 = some 500 ∧
    (deleteVideo s3 (some 1) 10).2.videos = [] ∧
    (deleteVideo s3 (some 1) 10).2.likes = s3.likes ∧
    (deleteVideo s3 (some 1) 10).2.comments = s3.comments ∧
    (deleteVideo s3 (some 1) 10).2.playlists = s3.playlists ∧
    10 ∈ ((deleteVideo s3 (some 1) 10).2.playlists.map (fun p => p.videos)).flatten := by
  decide

/-- Account with a live session credential. -/
def user7 : UserRec :=
  { uid := 1, username := "useven", email := "seven@example.com", fullName := "U Seven",
    password := "hash-seven", avatar := "av", coverImage := "",
    refreshToken := some "rtok-one" }

def s7 : Store :=
  { users := [user7], videos := [], comments := [], tweets := [], likes := [],
    playlists := [], subscriptions := [], nextId := 2 }

def env7 : Env :=
  { upload := fun _ => none,
    verifyRefresh := fun t => if t = "rtok-one" then some 1 else none,
    genAccess := fun _ => "atok-two", genRefresh := fun _ => "rtok-two" }

/-- C7: the claim says logout clears the stored refresh token so the old token
is then rejected with 401.  `logoutUser` issues
`$set: \x7b refreshToken: undefined \x7d`, which Mongoose strips from the update, so
the store is unchanged, the old token still matches, and `refreshAccessToken`
presenting it succeeds with HTTP 200 instead of 401. -/
theorem C7_logout_keeps_refresh_token_bug :
    (logoutUser s7 1).2 = s7 ∧
    userRefreshToken (logoutUser s7 1).2 1 = some (some "rtok-one") ∧
    httpStatus (refreshAccessToken (logoutUser s7 1).2 env7 (some "rtok-one")).1 =
      some 200 := by
  decide

/-- Account whose stored avatar is empty (so the broken Cloudinary cleanup
path is skipped and `updateUserAvatar` can reach its success response). -/
def user8 : UserRec :=
  { uid := 1, username := "ueight", email := "eight@example.com", fullName := "U Eight",
    password := "hash-eight", avatar := "", coverImage := "", refreshToken := none }

def s8 : Store :=
  { users := [user8], videos := [], comments := [], tweets := [], likes := [],
    playlists := [], subscriptions := [], nextId := 2 }

def env8 : Env :=
  { upload := fun p => some { url := "http://cdn.example/" ++ p, publicId := p, duration := 0 },
    verifyRefresh := fun _ => none, genAccess := fun _ => "", genRefresh := fun _ => "" }

/-- C8: the claim says no success payload of the account operations ever
contains the hashed password.  `updateUserAvatar` responds with `user` — the
document fetched by a plain `findById`, which includes the password — instead
of the `-password`-selected `updatedUser`, so the 200 payload carries the
`password` field. -/
theorem C8_avatar_response_contains_password_bug :
    (updateUserAvatar s8 env8 1 (some "new.png")).1 =
      .ok 200 (serializeFullUser user8) ∧
    ("password", "hash-eight") ∈ serializeFullUser user8 := by
  decide

/-- Empty store for the registration scenario. -/
def s60 : Store :=
  { users := [], videos := [], comments := [], tweets := [], likes := [],
    playlists := [], subscriptions := [], nextId := 1 }

def env6 : Env :=
  { upload := fun p => some { url := "http://cdn.example/" ++ p, publicId := p, duration := 0 },
    verifyRefresh := fun _ => none, genAccess := fun _ => "", genRefresh := fun _ => "" }

def req61 : RegisterReq :=
  { fullName := "Alice A", email := "alice@example.com", username := "alice",
    password := "pw", avatarPath := some "av1.png", coverImagePaths := ["cv1.png"] }

/-- Same handle with different letter case, different email. -/
def req62 : RegisterReq :=
  { fullName := "Alice B", email := "alice2@example.com", username := "Alice",
    password := "pw", avatarPath := some "av2.png", coverImagePaths := ["cv2.png"] }

/-- Store after the first successful registration. -/
def s61 : Store := (registerUser s60 env6 req61).2

/-- C6: the claim says a second registration whose handle equals the first up
to letter case fails with 409 and creates no account.  The duplicate pre-check
queries the raw `username` while the stored handle is lowercased, so
registering "Alice" after "alice" misses the 409 check and runs `User.create`,
which hits the store-level unique index (modelled from the spec, the user
model being absent from src/) and surfaces as an uncategorized duplicate-key
failure — HTTP 500, not 409.  No account record is created. -/
theorem C6_register_casing_bug :
    httpStatus (registerUser s60 env6 req61).1 = some 201 ∧
    s61.users.length = 1 ∧
    (registerUser s61 env6 req62).1 = .jsErr "MongoServerError: E11000 duplicate key error" ∧
    httpStatus (registerUser s61 env6 req62).1 = some 500 ∧
    (registerUser s61 env6 req62).2 = s61 := by
  decide

/-- C2: for every owner-scoped mutation, an authenticated actor with a
well-formed id for which no record matches `(id, owner = actor)` — whether the
record is absent or owned by someone else — receives the single 404 outcome,
and the store is unchanged.  The hypotheses of each conjunct state exactly
that no matching record exists; text-field arguments are non-blank so that
the earlier 400 validations do not fire. -/
theorem C2_ownerScoped_mutations_404 (s : Store) (a i : ObjId) :
    ((∀ c ∈ s.comments, c.cid ≠ i ∨ c.owner ≠ a) →
      deleteComment s (some a) i =
        (.apiErr 404 "Comment not found or you are not owner", s) ∧
      ∀ content : String, strTrim content ≠ "" →
        updateComment s (some a) i content =
          (.apiErr 404 "Comment not found or you do not have permission to update it", s)) ∧
    ((∀ v ∈ s.videos, v.vid ≠ i ∨ v.owner ≠ a) →
      deleteVideo s (some a) i =
        (.apiErr 404 "Video not found or you are not the owner", s) ∧
      ∀ env title, strTrim title ≠ "" →
        updateVideo s env (some a) i (some title) none none =
          (.apiErr 404 "Video not found or you are not the owner", s)) ∧
    ((∀ t ∈ s.tweets, t.tid ≠ i ∨ t.owner ≠ a) →
      deleteTweet s (some a) i =
        (.apiErr 404 "Tweet not found or you are not the owner", s) ∧
      ∀ content, strTrim content ≠ "" →
        updateTweet s (some a) i content =
          (.apiErr 404 "Tweet not found or you are not the owner", s)) ∧
    ((∀ p ∈ s.playlists, p.pid ≠ i ∨ p.owner ≠ a) →
      deletePlaylist s (some a) i =
        (.apiErr 404 "Playlist not found or you are not the owner", s) ∧
      (∀ name, strTrim name ≠ "" →
        updatePlaylist s (some a) i (some name) none =
          (.apiErr 404 "Playlist not found or you are not the owner", s)) ∧
      (∀ vid v, findFirst s.videos (fun x => decide (x.vid = vid)) = some v →
        addVideoToPlaylist s (some a) i vid =
          (.apiErr 404 "Playlist not found or you are not the owner", s)) ∧
      ∀ vid, removeVideoFromPlaylist s (some a) i vid =
        (.apiErr 404 "Playlist not found or you are not the owner", s)) := by
  refine ⟨fun h => ?_, fun h => ?_, fun h => ?_, fun h => ?_⟩
  · have hq : findFirst s.comments (fun c => decide (c.cid = i) && decide (c.owner = a)) = none :=
      findFirst_eq_none (fun c hc => by
        rcases h c hc with h1 | h1 <;> simp [h1])
    refine ⟨?_, fun content hcontent => ?_⟩
    · simp [deleteComment, hq]
    · simp [updateComment, hq, hcontent]
  · have hq : findFirst s.videos (fun v => decide (v.vid = i) && decide (v.owner = a)) = none :=
      findFirst_eq_none (fun v hv => by
        rcases h v hv with h1 | h1 <;> simp [h1])
    refine ⟨?_, fun env title htitle => ?_⟩
    · simp [deleteVideo, hq]
    · simp [updateVideo, hq, optBlank, htitle]
  · have hq : findFirst s.tweets (fun t => decide (t.tid = i) && decide (t.owner = a)) = none :=
      findFirst_eq_none (fun t ht => by
        rcases h t ht with h1 | h1 <;> simp [h1])
    refine ⟨?_, fun content hcontent => ?_⟩
    · simp [deleteTweet, hq]
    · simp [updateTweet, hq, hcontent]
  · have hq : findFirst s.playlists (fun p => decide (p.pid = i) && decide (p.owner = a)) = none :=
      findFirst_eq_none (fun p hp => by
        rcases h p hp with h1 | h1 <;> simp [h1])
    refine ⟨?_, fun name hname => ?_, fun vid v hv => ?_, fun vid => ?_⟩
    · simp [deletePlaylist, hq]
    · simp [updatePlaylist, hq, optBlank, hname]
    · simp [addVideoToPlaylist, hq, hv]
    · simp [removeVideoFromPlaylist, hq]

/-- Fixture for the C2 witness: each collection holds one record owned by
account 1; actor 2 is not the owner of any of them. -/
def sC2 : Store :=
  { users := [user1, user2],
    videos := [{ vid := 10, owner := 1, title := "t", description := "d",
                 videoFile := "vf", thumbnail := "th", duration := 5, views := 0,
                 isPublished := true }],
    comments := [{ cid := 100, video := 10, owner := 1, content := "hello" }],
    tweets := [{ tid := 200, owner := 1, content := "tw" }],
    likes := [],
    playlists := [{ pid := 300, owner := 1, name := "p", description := "d",
                    videos := [10] }],
    subscriptions := [], nextId := 400 }

/-- Witness for C2 at a concrete non-owner actor. -/
theorem C2_witness :
    deleteComment sC2 (some 2) 100 =
      (.apiErr 404 "Comment not found or you are not owner", sC2) ∧
    removeVideoFromPlaylist sC2 (some 2) 300 10 =
      (.apiErr 404 "Playlist not found or you are not the owner", sC2) :=
  ⟨((C2_ownerScoped_mutations_404 sC2 2 100).1 (by decide)).1,
   ((C2_ownerScoped_mutations_404 sC2 2 300).2.2.2 (by decide)).2.2.2 10⟩

/-- C4: fetching a published video through `getVideoById` increments its
stored view counter by exactly one when the caller is anonymous or is an
authenticated non-owner, and leaves the counter (indeed the whole store)
unchanged when the caller is the owner. -/
theorem C4_view_counter (s : Store) (cu : Option ObjId) (videoId : ObjId)
    (v : VideoRec)
    (hfind : findFirst s.videos (fun x => decide (x.vid = videoId)) = some v)
    (_hpub : v.isPublished = true) :
    ((cu = none ∨ ∃ u, cu = some u ∧ u ≠ v.owner) →
       viewsOf (getVideoById s cu videoId).2 videoId = some (v.views + 1)) ∧
    (cu = some v.owner → (getVideoById s cu videoId).2 = s) := by
  have hp := findFirst_some hfind
  have hvid : v.vid = videoId := by simpa using hp
  have hupd :
      findFirst
        (updateFirst s.videos (fun x => decide (x.vid = videoId))
          (fun x => { x with views := x.views + 1 }))
        (fun x => decide (x.vid = videoId)) =
      some { v with views := v.views + 1 } :=
    findFirst_updateFirst hfind (by simp [hvid])
  constructor
  · rintro (rfl | ⟨u, rfl, hne⟩)
    · simp [getVideoById, hfind, viewsOf, hupd]
    · simp [getVideoById, hfind, viewsOf, hupd, Ne.symm hne]
  · rintro rfl
    simp [getVideoById, hfind]

/-- Fixture for the C4 witness: published video 10 owned by account 1 with 5
views. -/
def vC4 : VideoRec :=
  { vid := 10, owner := 1, title := "t", description := "d", videoFile := "vf",
    thumbnail := "th", duration := 5, views := 5, isPublished := true }

def sC4 : Store :=
  { users := [user1, user2], videos := [vC4], comments := [], tweets := [],
    likes := [], playlists := [], subscriptions := [], nextId := 50 }

/-- Witness for C4: a non-owner fetch moves the counter from 5 to 6, an owner
fetch leaves the store unchanged. -/
theorem C4_witness :
    viewsOf (getVideoById sC4 (some 2) 10).2 10 = some 6 ∧
    (getVideoById sC4 (some 1) 10).2 = sC4 :=
  ⟨(C4_view_counter sC4 (some 2) 10 vC4 (by decide) rfl).1
      (Or.inr ⟨2, rfl, by decide⟩),
   (C4_view_counter sC4 (some 1) 10 vC4 (by decide) rfl).2 rfl⟩

/-- C5: for a playlist P owned by the acting account and an existing video V,
adding V when P already contains it fails with 409 and changes nothing;
removing V when P does not contain it fails with 404 and changes nothing; a
successful add leaves P containing V exactly once; a successful remove leaves
P without V. -/
theorem C5_playlist_membership (s : Store) (a pid vid : ObjId)
    (pl : PlaylistRec) (v : VideoRec)
    (hpl : findFirst s.playlists
        (fun p => decide (p.pid = pid) && decide (p.owner = a)) = some pl)
    (hv : findFirst s.videos (fun x => decide (x.vid = vid)) = some v) :
    (vid ∈ pl.videos →
       addVideoToPlaylist s (some a) pid vid =
         (.apiErr 409 "Video already exists in the playlist", s)) ∧
    (vid ∉ pl.videos →
       (addVideoToPlaylist s (some a) pid vid).1 =
         .ok 200 { pl with videos := pl.videos ++ [vid] } ∧
       ownedPlaylistVideos (addVideoToPlaylist s (some a) pid vid).2 a pid =
         some (pl.videos ++ [vid]) ∧
       (pl.videos ++ [vid]).count vid = 1) ∧
    (vid ∉ pl.videos →
       removeVideoFromPlaylist s (some a) pid vid =
         (.apiErr 404 "Video not found in the playlist", s)) ∧
    (vid ∈ pl.videos →
       (removeVideoFromPlaylist s (some a) pid vid).1 =
         .ok 200 { pl with videos := pl.videos.filter (fun x => !decide (x = vid)) } ∧
       ownedPlaylistVideos (removeVideoFromPlaylist s (some a) pid vid).2 a pid =
         some (pl.videos.filter (fun x => !decide (x = vid))) ∧
       vid ∉ pl.videos.filter (fun x => !decide (x = vid))) := by
  have hppl := findFirst_some hpl
  refine ⟨fun hmem => ?_, fun hmem => ?_, fun hmem => ?_, fun hmem => ?_⟩
  · simp [addVideoToPlaylist, hv, hpl, hmem]
  · have hadd :
        findFirst
          (updateFirst s.playlists
            (fun p => decide (p.pid = pid) && decide (p.owner = a))
            (fun p => { p with videos := p.videos ++ [vid] }))
          (fun p => decide (p.pid = pid) && decide (p.owner = a)) =
        some { pl with videos := pl.videos ++ [vid] } :=
      findFirst_updateFirst hpl (by simpa using hppl)
    refine ⟨?_, ?_, ?_⟩
    · simp [addVideoToPlaylist, hv, hpl, hmem]
    · simp [addVideoToPlaylist, ownedPlaylistVideos, hv, hpl, hmem, hadd]
    · simp [List.count_append, List.count_eq_zero.mpr hmem]
  · simp [removeVideoFromPlaylist, hpl, hmem]
  · have hrem :
        findFirst
          (updateFirst s.playlists
            (fun p => decide (p.pid = pid) && decide (p.owner = a))
            (fun p => { p with videos := p.videos.filter (fun x => !decide (x = vid)) }))
          (fun p => decide (p.pid = pid) && decide (p.owner = a)) =
        some { pl with videos := pl.videos.filter (fun x => !decide (x = vid)) } :=
      findFirst_updateFirst hpl (by simpa using hppl)
    refine ⟨?_, ?_, ?_⟩
    · simp [removeVideoFromPlaylist, hpl, hmem]
    · simp [removeVideoFromPlaylist, ownedPlaylistVideos, hpl, hmem, hrem]
    · simp [List.mem_filter]

/-- Fixture for the C5 witness: playlist 300 of account 1 holds video 10;
video 11 exists but is not a member. -/
def sC5 : Store :=
  { users := [user1, user2],
    videos := [{ vid := 10, owner := 1, title := "t", description := "d",
                 videoFile := "vf", thumbnail := "th", duration := 5, views := 0,
                 isPublished := true },
               { vid := 11, owner := 1, title := "t2", description := "d2",
                 videoFile := "vf2", thumbnail := "th2", duration := 6, views := 0,
                 isPublished := true }],
    comments := [], tweets := [], likes := [],
    playlists := [{ pid := 300, owner := 1, name := "p", description := "d",
                    videos := [10] }],
    subscriptions := [], nextId := 400 }

def plC5 : PlaylistRec :=
  { pid := 300, owner := 1, name := "p", description := "d", videos := [10] }

def vC5a : VideoRec :=
  { vid := 10, owner := 1, title := "t", description := "d", videoFile := "vf",
    thumbnail := "th", duration := 5, views := 0, isPublished := true }

def vC5b : VideoRec :=
  { vid := 11, owner := 1, title := "t2", description := "d2", videoFile := "vf2",
    thumbnail := "th2", duration := 6, views := 0, isPublished := true }

/-- Witness for C5: duplicate add of video 10 is a 409; removal of the absent
video 11 is a 404; adding video 11 yields membership `[10, 11]` with 11
appearing exactly once. -/
theorem C5_witness :
    addVideoToPlaylist sC5 (some 1) 300 10 =
      (.apiErr 409 "Video already exists in the playlist", sC5) ∧
    removeVideoFromPlaylist sC5 (some 1) 300 11 =
      (.apiErr 404 "Video not found in the playlist", sC5) ∧
    ownedPlaylistVideos (addVideoToPlaylist sC5 (some 1) 300 11).2 1 300 =
      some [10, 11] :=
  ⟨(C5_playlist_membership sC5 1 300 10 plC5 vC5a (by decide) (by decide)).1
      (by decide),
   (C5_playlist_membership sC5 1 300 11 plC5 vC5b (by decide) (by decide)).2.2.1
      (by decide),
   ((C5_playlist_membership sC5 1 300 11 plC5 vC5b (by decide) (by decide)).2.1
      (by decide)).2.1⟩

/-- Video for the pagination scenario. -/
def vC9 : VideoRec :=
  { vid := 10, owner := 1, title := "t", description := "d", videoFile := "vf",
    thumbnail := "th", duration := 5, views := 0, isPublished := true }

/-- Store for the pagination scenario: one account and one video, so every
listing's existence check passes. -/
def s9 : Store :=
  { users := [user1], videos := [vC9], comments := [], tweets := [], likes := [],
    playlists := [], subscriptions := [], nextId := 10 }

/-- C9 counterexample: the claim says an invalid supplied `page`/`limit`
(non-numeric or non-positive) falls back to the defaults 1 and 10.  With
`page = "abc"` and `limit = "0"`, `getAllVideos` instead hands the pagination
layer `page = NaN` (modelled `none`) and `limit = 0`: no fallback to the
defaults happens, refuting the claim at this input. -/
theorem C9_counterexample :
    (getAllVideos s9 (some "abc") (some "0") none none none none).1 =
      .ok 200 { ownerFilter := none, textQuery := none, sortBy := "createdAt",
                sortDesc := true, opts := { page := none, limit := some 0 } } ∧
    ({ page := none, limit := some 0 } : PaginateOpts) ≠
      { page := some 1, limit := some 10 } := by
  constructor
  · rfl
  · decide

/-- C9 amended: for the four listings whose model carries the
aggregate-paginate plugin (`getAllVideos`, `getVideoComments`,
`getLikedVideos`, `getUserTweets`), an absent `page`/`limit` defaults to 1 and
10 via the destructuring default, and a supplied value is passed to the
pagination layer exactly as `parseInt` leaves it (NaN for non-numeric text,
non-positive numbers unchanged), with no fallback to the defaults and no
handler-level error over the parameter values; the two subscription listings
parse the parameters the same way but never reach a pagination layer — the
Subscription model registers no aggregate-paginate plugin, so the call throws
a TypeError and the request fails with HTTP 500. -/
theorem C9_pagination_passthrough (s : Store) (u videoId : ObjId)
    (v : VideoRec) (usr : UserRec)
    (search sortBy sortType pv lv : Option String)
    (hvideo : findFirst s.videos (fun x => decide (x.vid = videoId)) = some v)
    (huser : findFirst s.users (fun x => decide (x.uid = u)) = some usr) :
    (∃ call : VideoListingCall,
       (getAllVideos s pv lv search sortBy sortType none).1 = .ok 200 call ∧
       call.opts = { page := pageParam pv, limit := limitParam lv }) ∧
    (∃ call : CommentListingCall,
       (getVideoComments s videoId pv lv).1 = .ok 200 call ∧
       call.opts = { page := pageParam pv, limit := limitParam lv }) ∧
    (∃ call : LikedVideosCall,
       (getLikedVideos s (some u) pv lv).1 = .ok 200 call ∧
       call.opts = { page := pageParam pv, limit := limitParam lv }) ∧
    (∃ call : TweetListingCall,
       (getUserTweets s u pv lv sortBy sortType).1 = .ok 200 call ∧
       call.opts = { page := pageParam pv, limit := limitParam lv }) ∧
    (getUserChannelSubscribers s u pv lv =
       (.jsErr "TypeError: Subscription.aggregatePaginate is not a function", s)) ∧
    (getSubscribedChannels s u pv lv =
       (.jsErr "TypeError: Subscription.aggregatePaginate is not a function", s)) ∧
    (pageParam none = some 1 ∧ limitParam none = some 10) ∧
    (∀ w, jsParseInt w = none →
       pageParam (some w) = none ∧ limitParam (some w) = none) ∧
    (∀ w n, jsParseInt w = some n →
       pageParam (some w) = some n ∧ limitParam (some w) = some n) := by
  refine ⟨⟨_, rfl, rfl⟩, ?_, ⟨_, rfl, rfl⟩, ?_, ?_, ?_, ⟨rfl, rfl⟩,
    fun w hw => ?_, fun w n hw => ?_⟩
  · simp only [getVideoComments, hvideo]
    exact ⟨_, rfl, rfl⟩
  · simp only [getUserTweets, huser]
    exact ⟨_, rfl, rfl⟩
  · simp only [getUserChannelSubscribers, huser]
  · simp only [getSubscribedChannels, huser]
  · exact ⟨by simp [pageParam, hw], by simp [limitParam, hw]⟩
  · exact ⟨by simp [pageParam, hw], by simp [limitParam, hw]⟩

/-- Witness for C9 at concrete inputs: absent parameters default to page 1 and
limit 10; a supplied non-numeric page is handed on as NaN; the subscriber
listing of the existing channel dies in the aggregate-paginate TypeError. -/
theorem C9_witness :
    pageParam none = some 1 ∧ limitParam none = some 10 ∧
    pageParam (some "abc") = none ∧
    getUserChannelSubscribers s9 1 (some "abc") none =
      (.jsErr "TypeError: Subscription.aggregatePaginate is not a function", s9) := by
  have h := C9_pagination_passthrough s9 1 10 vC9 user1 none none none
    (some "abc") none (by decide) (by decide)
  exact ⟨h.2.2.2.2.2.2.1.1, h.2.2.2.2.2.2.1.2,
    (h.2.2.2.2.2.2.2.1 "abc" (by decide)).1, h.2.2.2.2.1⟩

/-- Environment whose upload always rejects, for the C10 counterexample. -/
def env10 : Env :=
  { upload := fun _ => none, verifyRefresh := fun _ => none,
    genAccess := fun _ => "", genRefresh := fun _ => "" }

def fs10 : FsState := { files := ["a.png"] }

/-- C10 counterexample: the claim says `uploadOnCloudinary` returns `null` on
any failure, including an absent path, and never propagates an exception.  On
an absent (`undefined`) path the catch block itself runs
`fs.unlinkSync(undefined)`, which throws, and that exception propagates to
the caller instead of a `null` return. -/
theorem C10_counterexample :
    (uploadOnCloudinary env10 fs10 none).1 =
      .thrown "TypeError: The path argument must be of type string" ∧
    ∀ r : Option CloudinaryRes, (uploadOnCloudinary env10 fs10 none).1 ≠ .value r := by
  constructor
  · rfl
  · intro r
    simp [uploadOnCloudinary, fsUnlinkSync]

/-- C10 amended: `uploadOnCloudinary` returns the upload result on success;
on a rejected upload with a present path naming an existing local file it
deletes the file and returns `null`; but on an absent path, or when the
failure-cleanup unlink itself fails because the file is gone, the `catch`
block throws and the exception propagates to the caller. -/
theorem C10_uploadOnCloudinary_amended (env : Env) (fs : FsState) (p : String) :
    (∀ r, env.upload p = some r →
       uploadOnCloudinary env fs (some p) = (.value (some r), fs)) ∧
    (env.upload p = none → p ∈ fs.files →
       uploadOnCloudinary env fs (some p) =
         (.value none, { files := fs.files.erase p })) ∧
    (∃ m, (uploadOnCloudinary env fs none).1 = .thrown m) ∧
    (env.upload p = none → p ∉ fs.files →
       ∃ m, (uploadOnCloudinary env fs (some p)).1 = .thrown m) := by
  refine ⟨fun r hr => ?_, fun hu hmem => ?_, ⟨_, rfl⟩, fun hu hmem => ?_⟩
  · simp [uploadOnCloudinary, hr]
  · simp [uploadOnCloudinary, fsUnlinkSync, hu, hmem]
  · exact ⟨"Error: ENOENT: no such file or directory",
      by simp [uploadOnCloudinary, fsUnlinkSync, hu, hmem]⟩

/-- Environment whose upload succeeds on one concrete path, for the C10
witness. -/
def envC10 : Env :=
  { upload := fun q => if q = "a.png" then
      some { url := "http://cdn.example/a.png", publicId := "a", duration := 0 }
    else none,
    verifyRefresh := fun _ => none, genAccess := fun _ => "", genRefresh := fun _ => "" }

/-- Witness for C10 at concrete inputs: a fulfilled upload returns the result,
and a rejected upload of an existing file returns `null` after deleting it. -/
theorem C10_witness :
    uploadOnCloudinary envC10 fs10 (some "a.png") =
      (.value (some { url := "http://cdn.example/a.png", publicId := "a",
                      duration := 0 }), fs10) ∧
    uploadOnCloudinary env10 fs10 (some "a.png") =
      (.value none, { files := [] }) :=
  ⟨(C10_uploadOnCloudinary_amended envC10 fs10 "a.png").1 _ (by decide),
   (C10_uploadOnCloudinary_amended env10 fs10 "a.png").2.1 rfl (by decide)⟩

end ChaiBackend
